import Mathlib

/-!
Verification development for the mundi repository (browser 3D world).

The definitions below are a shallow embedding of the JavaScript sources:

* `TerrainGenerator.getHeightAt`  — src/js/terrain.js
* the `CameraController` movement, terrain collision, `setPosition` and
  `teleportTo` operations — src/js/camera-controller.js
* the `PerformanceOptimizer` operations: `createLODForObject`,
  `createReducedDetail`, `createImpostor`, `adaptiveQuality`,
  `updateFrustumCulling` (per object), `toggleOptimization`,
  `getFromPool` / `returnToPool` — src/js/performance-optimizer.js

JavaScript numbers are modelled as rationals (`ℚ`); the claims under study
are about exact comparisons, floors, clamps and list manipulations, none of
which depend on floating point rounding.  Scene-graph plumbing owned by the
THREE.js library is modelled by its documented semantics where a claim
depends on it (`THREE.Frustum.intersectsSphere`, `THREE.LOD.update`) and is
otherwise abstracted into explicit data (world-space bounding spheres,
camera facing vectors passed as inputs).
-/

namespace Mundi

/-- A 3-component vector of rationals, standing in for `THREE.Vector3`. -/
structure Vec3 where
  x : ℚ
  y : ℚ
  z : ℚ
deriving DecidableEq

/-- Component-wise vector addition (`THREE.Vector3.add`). -/
def Vec3.add (a b : Vec3) : Vec3 :=
  ⟨a.x + b.x, a.y + b.y, a.z + b.z⟩

/-- Scalar multiple of a vector (`THREE.Vector3.multiplyScalar`). -/
def Vec3.smul (c : ℚ) (v : Vec3) : Vec3 :=
  ⟨c * v.x, c * v.y, c * v.z⟩

/-- Dot product of two vectors (`THREE.Vector3.dot`). -/
def Vec3.dot (a b : Vec3) : ℚ :=
  a.x * b.x + a.y * b.y + a.z * b.z

/-- The zero vector. -/
def Vec3.zero : Vec3 := ⟨0, 0, 0⟩

/-! ## Terrain (src/js/terrain.js)

`TerrainGenerator` keeps a square heightfield of `segments + 1` samples per
axis over the world square `[-size/2, size/2]^2`.  The height grid is the
`heightData` array of arrays built by `generateHeightData`; `getHeightAt`
only reads it.  The constructor fixes `size = 1000` and `segments = 256`,
but `getHeightAt` works for any field values, so they are kept as fields. -/

/-- State of `TerrainGenerator` that `getHeightAt` reads. -/
structure TerrainGenerator where
  size : ℚ
  segments : ℕ
  heightData : List (List ℚ)
deriving DecidableEq

/-- The grid index a world coordinate is mapped to by `getHeightAt`:
`Math.floor(((coord + size / 2) / size) * segments)`. -/
def gridIndex (size : ℚ) (segments : ℕ) (coord : ℚ) : ℤ :=
  Int.floor (((coord + size / 2) / size) * (segments : ℚ))

/-- Shallow embedding of `TerrainGenerator.getHeightAt` (terrain.js lines
195-208): return 0 when `heightData` is empty, map both coordinates to grid
indices, return 0 when an index is outside `[0, segments)`, and otherwise
read the stored sample (a missing row or entry also yields 0, matching the
defensive `heightData[nx] ? (heightData[nx][nz] || 0) : 0`). -/
def TerrainGenerator.getHeightAt (t : TerrainGenerator) (x z : ℚ) : ℚ :=
  if t.heightData.length = 0 then 0
  else
    let nx := gridIndex t.size t.segments x
    let nz := gridIndex t.size t.segments z
    if nx < 0 ∨ (t.segments : ℤ) ≤ nx ∨ nz < 0 ∨ (t.segments : ℤ) ≤ nz then 0
    else
      match t.heightData.get? nx.toNat with
      | some row => row.getD nz.toNat 0
      | none => 0

theorem gridIndex_neg {size : ℚ} {segments : ℕ} {coord : ℚ}
    (hs : 0 < size) (hseg : 0 < segments) (h : coord < -(size / 2)) :
    gridIndex size segments coord < 0 := by
  unfold gridIndex
  have h1 : coord + size / 2 < 0 := by linarith
  have h2 : (coord + size / 2) / size < 0 := div_neg_of_neg_of_pos h1 hs
  have h3 : ((coord + size / 2) / size) * (segments : ℚ) < 0 := by
    have : (0 : ℚ) < (segments : ℚ) := by exact_mod_cast hseg
    exact mul_neg_of_neg_of_pos h2 this
  exact_mod_cast Int.floor_lt.mpr (by exact_mod_cast h3)

theorem gridIndex_ge {size : ℚ} {segments : ℕ} {coord : ℚ}
    (hs : 0 < size) (h : size / 2 < coord) :
    (segments : ℤ) ≤ gridIndex size segments coord := by
  unfold gridIndex
  apply Int.le_floor.mpr
  push_cast
  have h1 : (1 : ℚ) ≤ (coord + size / 2) / size := by
    rw [le_div_iff₀ hs]
    linarith
  have h2 : (0 : ℚ) ≤ (segments : ℚ) := by positivity
  calc (segments : ℚ) = 1 * (segments : ℚ) := (one_mul _).symm
    _ ≤ ((coord + size / 2) / size) * (segments : ℚ) :=
        mul_le_mul_of_nonneg_right h1 h2

theorem getHeightAt_of_index_out (t : TerrainGenerator) (x z : ℚ)
    (h : gridIndex t.size t.segments x < 0 ∨
         (t.segments : ℤ) ≤ gridIndex t.size t.segments x ∨
         gridIndex t.size t.segments z < 0 ∨
         (t.segments : ℤ) ≤ gridIndex t.size t.segments z) :
    t.getHeightAt x z = 0 := by
  unfold TerrainGenerator.getHeightAt
  split
  · rfl
  · simp only [if_pos h]

/-- Claim C1: outside the terrain square `[-size/2, size/2]^2` the height
query returns 0; the query maps each coordinate to the index
`floor(((coord + size/2)/size) * segments)` and returns 0 whenever a
computed index is outside `[0, segments)`; when both indices are in range
it returns the stored grid sample for that cell. -/
theorem C1_getHeightAt_domain (t : TerrainGenerator) (x z : ℚ)
    (hs : 0 < t.size) :
    ((x < -(t.size / 2) ∨ t.size / 2 < x ∨ z < -(t.size / 2) ∨ t.size / 2 < z) →
        t.getHeightAt x z = 0) ∧
    ((gridIndex t.size t.segments x < 0 ∨
      (t.segments : ℤ) ≤ gridIndex t.size t.segments x ∨
      gridIndex t.size t.segments z < 0 ∨
      (t.segments : ℤ) ≤ gridIndex t.size t.segments z) →
        t.getHeightAt x z = 0) ∧
    (t.heightData.length ≠ 0 →
      0 ≤ gridIndex t.size t.segments x →
      gridIndex t.size t.segments x < (t.segments : ℤ) →
      0 ≤ gridIndex t.size t.segments z →
      gridIndex t.size t.segments z < (t.segments : ℤ) →
      t.getHeightAt x z =
        (match t.heightData.get? (gridIndex t.size t.segments x).toNat with
         | some row => row.getD (gridIndex t.size t.segments z).toNat 0
         | none => 0)) := by
  refine ⟨?_, ?_, ?_⟩
  · intro hout
    rcases Nat.eq_zero_or_pos t.segments with hseg | hseg
    · apply getHeightAt_of_index_out
      right; left
      rw [hseg]
      simp only [Nat.cast_zero]
      unfold gridIndex
      rw [Nat.cast_zero, mul_zero, Int.floor_zero]
    · apply getHeightAt_of_index_out
      rcases hout with h | h | h | h
      · rcases lt_or_le (gridIndex t.size t.segments x) 0 with hneg | _
        · exact Or.inl hneg
        · exact Or.inl (gridIndex_neg hs hseg h)
      · exact Or.inr (Or.inl (gridIndex_ge hs h))
      · exact Or.inr (Or.inr (Or.inl (gridIndex_neg hs hseg h)))
      · exact Or.inr (Or.inr (Or.inr (gridIndex_ge hs h)))
  · exact getHeightAt_of_index_out t x z
  · intro hne hx0 hx1 hz0 hz1
    unfold TerrainGenerator.getHeightAt
    rw [if_neg hne]
    rw [if_neg]
    push_neg
    exact ⟨hx0, hx1, hz0, hz1⟩

theorem C1_witness :
    (0 : ℚ) < (TerrainGenerator.mk 1000 256 [[5]]).size ∧
    TerrainGenerator.getHeightAt ⟨1000, 256, [[5]]⟩ 600 0 = 0 :=
  ⟨by norm_num,
    (C1_getHeightAt_domain ⟨1000, 256, [[5]]⟩ 600 0 (by norm_num)).1
      (Or.inr (Or.inl (by norm_num)))⟩

/-! ## Camera controller (src/js/camera-controller.js)

The controller's navigation state is its `position` vector; the camera
transform is recomputed from it by `updateCamera` and carries no extra
state of its own.  `updateMovement` derives the `direction` and `right`
unit vectors from the camera pose through THREE (`getWorldDirection`,
cross product and normalisation); they enter the model as inputs `dir` and
`right`.  The downward raycast of `checkObjectCollisions` only inspects
non-terrain scene objects and can only ever raise the position; the model
covers the scene configuration relevant to the claims, a scene with no
non-terrain objects under the camera, where that raycast is a no-op. -/

/-- The input-intent snapshot `this.keys` of `CameraController`. -/
structure Keys where
  forward : Bool
  backward : Bool
  left : Bool
  right : Bool
  up : Bool
  down : Bool
  run : Bool
deriving DecidableEq

/-- All movement intents false. -/
def noInput : Keys := ⟨false, false, false, false, false, false, false⟩

/-- Shallow embedding of `CameraController.updateMovement`: horizontal
velocity is rebuilt each tick from the held keys scaled by
`moveSpeed * (run ? runMultiplier : 1) * deltaTime` with `moveSpeed = 50`
and `runMultiplier = 2`; vertical velocity is `+speed` while `up` is held,
else `-speed` while `down` is held, else 0; the velocity is added to the
position (Euler integration). -/
def updateMovement (keys : Keys) (dir rightv : Vec3) (dt : ℚ) (pos : Vec3) : Vec3 :=
  let speed := 50 * (if keys.run then 2 else 1) * dt
  let v1 := if keys.forward then Vec3.add Vec3.zero (Vec3.smul speed dir) else Vec3.zero
  let v2 := if keys.backward then Vec3.add v1 (Vec3.smul (-speed) dir) else v1
  let v3 := if keys.left then Vec3.add v2 (Vec3.smul (-speed) rightv) else v2
  let v4 := if keys.right then Vec3.add v3 (Vec3.smul speed rightv) else v3
  let vy := if keys.up then speed else if keys.down then -speed else 0
  Vec3.add pos ⟨v4.x, vy, v4.z⟩

/-- Shallow embedding of `CameraController.applyTerrainCollision`: query the
heightfield at the current horizontal coordinates and raise `position.y` to
`terrainHeight + 2` when it is below that minimum. -/
def applyTerrainCollision (h : ℚ → ℚ → ℚ) (pos : Vec3) : Vec3 :=
  let minHeight := h pos.x pos.z + 2
  if pos.y < minHeight then ⟨pos.x, minHeight, pos.z⟩ else pos

/-- Shallow embedding of `CameraController.update`: clamp `deltaTime` to at
most 0.1, integrate movement, then apply terrain collision.  `h` is the
injected `terrain.getHeightAt` query. -/
def cameraUpdate (h : ℚ → ℚ → ℚ) (keys : Keys) (dir rightv : Vec3)
    (dt : ℚ) (pos : Vec3) : Vec3 :=
  let dtc := if 1 / 10 < dt then 1 / 10 else dt
  applyTerrainCollision h (updateMovement keys dir rightv dtc pos)

/-- Shallow embedding of `CameraController.setPosition`: the stored position
is copied verbatim from the argument (no collision query is made). -/
def setPosition (pos : Vec3) : Vec3 := pos

/-- Shallow embedding of `CameraController.teleportTo`: the target height is
looked up and the position set to `(x, getHeightAt x z + 2, z)`. -/
def teleportTo (h : ℚ → ℚ → ℚ) (x z : ℚ) : Vec3 :=
  setPosition ⟨x, h x z + 2, z⟩

theorem updateMovement_noInput (dir rightv : Vec3) (dt : ℚ) (pos : Vec3) :
    updateMovement noInput dir rightv dt pos = pos := by
  cases pos
  simp [updateMovement, noInput, Vec3.add, Vec3.zero]

theorem applyTerrainCollision_eq_max (h : ℚ → ℚ → ℚ) (pos : Vec3) :
    applyTerrainCollision h pos =
      ⟨pos.x, max pos.y (h pos.x pos.z + 2), pos.z⟩ := by
  cases pos with
  | mk x y z =>
    unfold applyTerrainCollision
    by_cases hy : y < h x z + 2
    · rw [if_pos hy, max_eq_right hy.le]
    · rw [if_neg hy, max_eq_left (not_lt.mp hy)]

/-- A fixed concrete terrain whose stored height is 3 everywhere on the
grid, used to evaluate the navigation claims at concrete inputs; its
`getHeightAt 0 0` is 3. -/
def flatTerrain3 : TerrainGenerator :=
  ⟨4, 2, [[3, 3], [3, 3]]⟩

theorem flatTerrain3_origin : flatTerrain3.getHeightAt 0 0 = 3 := by
  norm_num [TerrainGenerator.getHeightAt, gridIndex, flatTerrain3]

/-- Claim C4 fails on the code: there is no gravity, so a camera resting
above the terrain clearance height is left where it is.  With terrain
height 3 at the origin and the camera at `(0, 10, 0)`, one no-input update
leaves `y = 10`, whereas the claim demands convergence to `3 + 2 = 5`. -/
theorem C4_counterexample :
    cameraUpdate flatTerrain3.getHeightAt noInput ⟨0, 0, -1⟩ ⟨1, 0, 0⟩
        (1 / 60) ⟨0, 10, 0⟩ = ⟨0, 10, 0⟩ ∧
    flatTerrain3.getHeightAt 0 0 = 3 ∧ (10 : ℚ) ≠ 3 + 2 := by
  refine ⟨?_, flatTerrain3_origin, by norm_num⟩
  unfold cameraUpdate
  simp only [updateMovement_noInput, applyTerrainCollision_eq_max]
  rw [show flatTerrain3.getHeightAt (0 : ℚ) (0 : ℚ) = 3 from flatTerrain3_origin]
  norm_num

/-- Claim C4 amended: a no-input update clamps the vertical position from
below only.  It maps the position to
`(x, max y (getHeightAt x z + 2), z)`: a position below the clearance
height is raised to exactly `terrainHeight + 2` (so `y = 4` over height 3
becomes 5), a position at or above it is unchanged (so `y = 10` stays 10,
and there is no convergence from above), and the update is idempotent, so
iterating it never moves the camera below `terrainHeight + 2`. -/
theorem C4_amended (h : ℚ → ℚ → ℚ) (dir rightv : Vec3) (dt : ℚ) (pos : Vec3) :
    cameraUpdate h noInput dir rightv dt pos =
      ⟨pos.x, max pos.y (h pos.x pos.z + 2), pos.z⟩ ∧
    cameraUpdate h noInput dir rightv dt
        (cameraUpdate h noInput dir rightv dt pos) =
      cameraUpdate h noInput dir rightv dt pos := by
  have key : ∀ p : Vec3, cameraUpdate h noInput dir rightv dt p =
      ⟨p.x, max p.y (h p.x p.z + 2), p.z⟩ := by
    intro p
    unfold cameraUpdate
    simp only [updateMovement_noInput, applyTerrainCollision_eq_max]
  refine ⟨key pos, ?_⟩
  rw [key pos, key ⟨pos.x, max pos.y (h pos.x pos.z + 2), pos.z⟩]
  simp [max_assoc]

/-- Claim C5 fails on the code: `setPosition` copies the requested position
verbatim and performs no collision query, so it can place the camera below
`terrainHeight + 2`.  Over the concrete terrain of height 3, setting the
position to the origin leaves `y = 0 < 3 + 2`. -/
theorem C5_counterexample :
    setPosition ⟨0, 0, 0⟩ = ⟨0, 0, 0⟩ ∧
    (setPosition ⟨0, 0, 0⟩).y <
      flatTerrain3.getHeightAt (setPosition ⟨0, 0, 0⟩).x
        (setPosition ⟨0, 0, 0⟩).z + 2 := by
  refine ⟨rfl, ?_⟩
  show (0 : ℚ) < flatTerrain3.getHeightAt 0 0 + 2
  rw [flatTerrain3_origin]
  norm_num

/-- Claim C5 amended: the per-tick update and `teleportTo` both establish
`position.y ≥ getHeightAt position.x position.z + 2` (for any input state,
after the update the invariant holds at the new coordinates, and
`teleportTo` lands exactly at the clearance height), but `setPosition`
copies its argument verbatim and does not enforce the invariant. -/
theorem C5_amended (h : ℚ → ℚ → ℚ) (keys : Keys) (dir rightv : Vec3)
    (dt : ℚ) (pos : Vec3) (x z : ℚ) (p : Vec3) :
    (h (cameraUpdate h keys dir rightv dt pos).x
        (cameraUpdate h keys dir rightv dt pos).z + 2 ≤
      (cameraUpdate h keys dir rightv dt pos).y) ∧
    teleportTo h x z = ⟨x, h x z + 2, z⟩ ∧
    setPosition p = p := by
  refine ⟨?_, rfl, rfl⟩
  unfold cameraUpdate
  rw [applyTerrainCollision_eq_max]
  exact le_max_right _ _

/-! ## Detail level construction (src/js/performance-optimizer.js)

`createReducedDetail` clones a mesh, rebuilds its geometry from scaled-down
parametric segment counts when the geometry carries a `parameters` record,
and simplifies the cloned material.  The texture maps are modelled as
presence flags (`normalMap = null` becomes `false`); geometry is modelled
by its reconstructible `parameters` record, since that is all the function
reads or rewrites. -/

/-- The reconstructible segment counts of a procedural geometry
(`geometry.parameters`).  A JavaScript segment count of 0 is falsy and is
skipped by the source exactly like a missing one, which the embedding
reproduces by testing the stored count against 0. -/
structure GeomParams where
  radialSegments : Option ℕ
  heightSegments : Option ℕ
  widthSegments : Option ℕ
deriving DecidableEq

/-- A geometry, reduced to what `createReducedDetail` inspects: the
optional `parameters` record. -/
structure Geometry where
  parameters : Option GeomParams
deriving DecidableEq

/-- A material, reduced to the fields `createReducedDetail` rewrites.  The
three map fields record whether the corresponding texture is attached. -/
structure Material where
  roughness : ℚ
  metalness : ℚ
  normalMap : Bool
  roughnessMap : Bool
  metalnessMap : Bool
deriving DecidableEq

/-- A renderable object, reduced to what the optimizer inspects. -/
structure Object where
  isMesh : Bool
  uuid : String
  geometry : Option Geometry
  material : Option Material
  position : Vec3
deriving DecidableEq

/-- Scale one optional segment count the way `createReducedDetail` does:
`params.radialSegments = Math.max(lo, Math.floor(old * detailLevel))` when
the stored count is truthy, untouched otherwise. -/
def scaleSegments (lo : ℕ) (seg : Option ℕ) (detailLevel : ℚ) : Option ℕ :=
  match seg with
  | some n => if n ≠ 0 then some (max lo (Int.floor ((n : ℚ) * detailLevel)).toNat) else some n
  | none => none

/-- The parameter record rebuilt by `createReducedDetail`: radial segments
floor at 3, height and width segments floor at 1. -/
def reduceParams (p : GeomParams) (detailLevel : ℚ) : GeomParams :=
  { radialSegments := scaleSegments 3 p.radialSegments detailLevel,
    heightSegments := scaleSegments 1 p.heightSegments detailLevel,
    widthSegments := scaleSegments 1 p.widthSegments detailLevel }

/-- The material simplification of `createReducedDetail`: roughness is
raised by 20% (capped at 1), metalness lowered by 20% (floored at 0), and
for `detailLevel < 0.5` the normal, roughness and metalness maps are
dropped. -/
def simplifyMaterial (m : Material) (detailLevel : ℚ) : Material :=
  let m1 := { m with roughness := min 1 (m.roughness * (12 / 10)),
                     metalness := max 0 (m.metalness * (8 / 10)) }
  if detailLevel < 1 / 2 then
    { m1 with normalMap := false, roughnessMap := false, metalnessMap := false }
  else m1

/-- Shallow embedding of `PerformanceOptimizer.createReducedDetail`
(performance-optimizer.js lines 113-169): `null` when the input is not a
mesh or has no geometry; otherwise a clone whose geometry is rebuilt from
scaled parameters when a `parameters` record exists (and kept as cloned
when none does), with the simplified material. -/
def createReducedDetail (obj : Object) (detailLevel : ℚ) : Option Object :=
  if !obj.isMesh || obj.geometry.isNone then none
  else
    let g := match obj.geometry with
      | some g0 =>
        match g0.parameters with
        | some p => Geometry.mk (some (reduceParams p detailLevel))
        | none => g0
      | none => Geometry.mk none
    some { obj with geometry := some g,
                    material := obj.material.map (fun m => simplifyMaterial m detailLevel) }

/-- Shallow embedding of `PerformanceOptimizer.createImpostor`: a sprite
(non-mesh) representation is always produced; the canvas drawing and the
bounding-box sizing are rendering-library work with no bearing on the
claims, so the model records only the produced sprite object. -/
def createImpostor (obj : Object) : Object :=
  { isMesh := false, uuid := obj.uuid ++ ".impostor", geometry := none,
    material := none, position := obj.position }

/-- Claim C7 fails on the code: a mesh whose geometry has no
reconstructible `parameters` record still produces a reduced
representation — the parameter-rescaling block is simply skipped and the
clone with a simplified material is returned, not `null`. -/
theorem C7_counterexample :
    (Object.mk true "g" (some (Geometry.mk none))
        (some (Material.mk (1 / 2) (1 / 2) true true true)) ⟨0, 0, 0⟩).geometry =
      some (Geometry.mk none) ∧
    (createReducedDetail
        (Object.mk true "g" (some (Geometry.mk none))
          (some (Material.mk (1 / 2) (1 / 2) true true true)) ⟨0, 0, 0⟩)
        (6 / 10)).isSome = true := by
  exact ⟨rfl, rfl⟩

/-- Claim C7 amended: `createReducedDetail` returns nothing exactly when
the input is not a mesh or carries no geometry at all; for a mesh whose
geometry has no reconstructible parameters it still returns a reduced
representation, namely the clone with the geometry kept as is and the
material simplified, so the caller never loses a level to missing
parameters. -/
theorem C7_reducedDetail_none_iff (obj : Object) (detailLevel : ℚ) :
    (createReducedDetail obj detailLevel = none ↔
      (obj.isMesh = false ∨ obj.geometry = none)) ∧
    (∀ g : Geometry, obj.isMesh = true → obj.geometry = some g →
      g.parameters = none →
      createReducedDetail obj detailLevel =
        some { obj with geometry := some g,
                        material := obj.material.map
                          (fun m => simplifyMaterial m detailLevel) }) := by
  constructor
  · unfold createReducedDetail
    constructor
    · intro h
      by_cases hm : obj.isMesh
      · cases hg : obj.geometry with
        | none => exact Or.inr rfl
        | some g0 =>
          exfalso
          rw [hm, hg] at h
          simp at h
      · exact Or.inl (by simpa using hm)
    · intro h
      rcases h with h | h
      · rw [h]
        rfl
      · rw [h]
        simp
  · intro g hm hg hp
    obtain ⟨params⟩ := g
    have hp' : params = none := hp
    subst hp'
    unfold createReducedDetail
    rw [hm, hg]
    rfl

theorem C7_witness :
    ((Object.mk true "w" (some (Geometry.mk none)) none ⟨0, 0, 0⟩).isMesh = true) ∧
    createReducedDetail (Object.mk true "w" (some (Geometry.mk none)) none ⟨0, 0, 0⟩)
        (3 / 10) =
      some (Object.mk true "w" (some (Geometry.mk none)) none ⟨0, 0, 0⟩) :=
  ⟨rfl, (C7_reducedDetail_none_iff
      (Object.mk true "w" (some (Geometry.mk none)) none ⟨0, 0, 0⟩) (3 / 10)).2
    (Geometry.mk none) rfl rfl rfl⟩

/-! ## LOD registry and adaptive quality (src/js/performance-optimizer.js)

A `THREE.LOD` node stores its levels as ordered `(representation,
distance)` pairs; `LOD.update(camera)` shows the level with the largest
index whose stored distance is at most the camera distance, scanning
forward from level 1 and stopping at the first level whose distance
exceeds it.  `createLODForObject` reads `this.lodDistances` at creation
time, so those numbers are copied into the node.  `adaptiveQuality` reads
`performanceStats.averageFPS` and the renderer pixel ratio and rewrites
`this.lodDistances` and the pixel ratio. -/

/-- A registered `THREE.LOD` node: its ordered levels with the distance
each was added at, and its world position copied from the original. -/
structure LODEntry where
  levels : List (Object × ℚ)
  position : Vec3
deriving DecidableEq

/-- A node of the scene list: either a plain object or a LOD node that
replaced one. -/
inductive SceneEntry where
  | objNode (obj : Object)
  | lodNode (entry : LODEntry)
deriving DecidableEq, BEq

/-- The `PerformanceOptimizer` state read and written by the LOD and
quality subsystems: the current LOD distance thresholds, the
uuid-keyed registry of LOD nodes, the scene children, the renderer's pixel
ratio and the measured mean FPS. -/
structure LODState where
  lodDistances : List ℚ
  lodObjects : List (String × LODEntry)
  scene : List SceneEntry
  pixelRatio : ℚ
  averageFPS : ℚ
deriving DecidableEq

/-- Shallow embedding of `PerformanceOptimizer.createLODForObject`
(performance-optimizer.js lines 63-105): a no-op for non-meshes and
already-registered uuids; otherwise build a LOD node whose level 0 is the
original at distance 0, whose medium and low levels are added at
`lodDistances[0]` and `lodDistances[1]` when `createReducedDetail`
produced them, and whose impostor is added at `lodDistances[2]`; swap the
node into the scene and record it in the registry. -/
def createLODForObject (s : LODState) (obj : Object) : LODState :=
  if !obj.isMesh || s.lodObjects.any (fun e => e.1 == obj.uuid) then s
  else
    let levels0 : List (Object × ℚ) := [(obj, 0)]
    let levels1 := match createReducedDetail obj (6 / 10) with
      | some m => levels0 ++ [(m, s.lodDistances.getD 0 0)]
      | none => levels0
    let levels2 := match createReducedDetail obj (3 / 10) with
      | some l => levels1 ++ [(l, s.lodDistances.getD 1 0)]
      | none => levels1
    let levels3 := levels2 ++ [(createImpostor obj, s.lodDistances.getD 2 0)]
    let entry : LODEntry := { levels := levels3, position := obj.position }
    { s with
      scene := (s.scene ++ [SceneEntry.lodNode entry]).erase (SceneEntry.objNode obj),
      lodObjects := s.lodObjects ++ [(obj.uuid, entry)] }

/-- The level scan of `THREE.LOD.update` over the distances of the levels
after level 0: walk while the camera distance is at least the stored level
distance, stopping at the first level that is still too far. -/
def lodScan : List ℚ → ℚ → ℕ
  | [], _ => 0
  | threshold :: rest, d => if threshold ≤ d then 1 + lodScan rest d else 0

/-- The level index `THREE.LOD.update` selects for camera distance `d`
from an ordered distance list (whose head is level 0's distance 0). -/
def lodSelectDistances (dists : List ℚ) (d : ℚ) : ℕ :=
  match dists with
  | [] => 0
  | _ :: rest => lodScan rest d

/-- The level index selected for a registered LOD node at camera distance
`d`: the scan over the distances stored in its levels. -/
def lodSelect (entry : LODEntry) (d : ℚ) : ℕ :=
  lodSelectDistances (entry.levels.map Prod.snd) d

/-- The pixel-ratio adjustment of `adaptiveQuality`: below 30 mean FPS
with a pixel ratio above 1 (the source condition is
`renderer.getPixelRatio() > 1`), the ratio is multiplied by 0.9 and
floored at 0.5; above 55 mean FPS with a ratio below the device pixel
ratio it is multiplied by 1.1 and capped there; otherwise unchanged. -/
def adaptiveQualityRatio (fps ratio devicePixelRatio : ℚ) : ℚ :=
  if fps < 30 ∧ 1 < ratio then max (1 / 2) (ratio * (9 / 10))
  else if 55 < fps ∧ ratio < devicePixelRatio then
    min devicePixelRatio (ratio * (11 / 10))
  else ratio

/-- The LOD-threshold adjustment of `adaptiveQuality`: below 25 mean FPS
the thresholds become the near preset `[30, 80, 150]`, above 50 the far
preset `[70, 200, 400]`, otherwise unchanged. -/
def adaptiveQualityDistances (fps : ℚ) (dists : List ℚ) : List ℚ :=
  if fps < 25 then [30, 80, 150]
  else if 50 < fps then [70, 200, 400]
  else dists

/-- Shallow embedding of `PerformanceOptimizer.adaptiveQuality`
(performance-optimizer.js lines 414-436): the two sequential if-blocks of
the source touch disjoint state (the renderer's pixel ratio and
`this.lodDistances`) and both read the mean FPS measured beforehand, so
they are rendered as the two independent field updates above.  No other
state is touched; in particular the registered LOD nodes are not. -/
def adaptiveQuality (s : LODState) (devicePixelRatio : ℚ) : LODState :=
  { s with
    pixelRatio := adaptiveQualityRatio s.averageFPS s.pixelRatio devicePixelRatio,
    lodDistances := adaptiveQualityDistances s.averageFPS s.lodDistances }

/-- A concrete mesh with a parametric geometry, used to exercise the LOD
registry at concrete inputs. -/
def meshA : Object :=
  Object.mk true "a" (some (Geometry.mk (some (GeomParams.mk (some 8) (some 2) none))))
    (some (Material.mk (1 / 2) (1 / 2) true true true)) ⟨0, 0, 0⟩

/-- The optimizer state before registration in the concrete C2 scenario:
default thresholds `[50, 150, 300]`, empty registry, `meshA` in the scene,
and a measured 20 FPS. -/
def stateA : LODState :=
  { lodDistances := [50, 150, 300], lodObjects := [],
    scene := [SceneEntry.objNode meshA], pixelRatio := 1, averageFPS := 20 }

theorem createReducedDetail_of_mesh (obj : Object) (detailLevel : ℚ)
    (hm : obj.isMesh = true) (hg : obj.geometry.isSome = true) :
    ∃ r, createReducedDetail obj detailLevel = some r := by
  obtain ⟨g, hgeq⟩ := Option.isSome_iff_exists.mp hg
  unfold createReducedDetail
  rw [hm, hgeq]
  exact ⟨_, rfl⟩

theorem createLOD_registered (t : LODState) (obj : Object)
    (h : t.lodObjects.any (fun e => e.1 == obj.uuid) = true) :
    createLODForObject t obj = t := by
  unfold createLODForObject
  rw [h]
  simp

theorem createLOD_not_mesh (t : LODState) (obj : Object) (h : obj.isMesh = false) :
    createLODForObject t obj = t := by
  unfold createLODForObject
  rw [h]
  rfl

/-- Claim C2 fails on the code: `createLODForObject` copies the numeric
values of `this.lodDistances` into the `THREE.LOD` node it builds, and
`adaptiveQuality` replaces `this.lodDistances` with a fresh array without
touching registered nodes.  Concretely, registering `meshA` under the
default thresholds `[50, 150, 300]` and then adapting at 20 mean FPS
switches `lodDistances` to `[30, 80, 150]`, yet the registered node still
carries `[0, 50, 150, 300]`: at camera distance 100 the per-frame
evaluation selects level 1 (medium), while the latest thresholds would
select level 2 (low). -/
theorem C2_counterexample :
    (adaptiveQuality (createLODForObject stateA meshA) 2).lodDistances =
      [30, 80, 150] ∧
    ((adaptiveQuality (createLODForObject stateA meshA) 2).lodObjects.map
        (fun e => (e.1, e.2.levels.map Prod.snd))) =
      [("a", [0, 50, 150, 300])] ∧
    lodSelect ((adaptiveQuality (createLODForObject stateA meshA) 2).lodObjects.getD 0
        ("", ⟨[], ⟨0, 0, 0⟩⟩)).2 100 = 1 ∧
    lodSelectDistances
        (0 :: (adaptiveQuality (createLODForObject stateA meshA) 2).lodDistances) 100 = 2 ∧
    (1 : ℕ) ≠ 2 := by
  have hfps : (createLODForObject stateA meshA).averageFPS = 20 := by
    unfold createLODForObject
    norm_num [stateA, meshA]
  have hlvls : (createLODForObject stateA meshA).lodObjects.map
      (fun e => (e.1, e.2.levels.map Prod.snd)) = [("a", [0, 50, 150, 300])] := by
    unfold createLODForObject
    norm_num [stateA, meshA, createReducedDetail]
  have hdists : (createLODForObject stateA meshA).lodDistances = [50, 150, 300] := by
    unfold createLODForObject
    norm_num [stateA, meshA]
  have hAdists : (adaptiveQuality (createLODForObject stateA meshA) 2).lodDistances =
      [30, 80, 150] := by
    show adaptiveQualityDistances (createLODForObject stateA meshA).averageFPS
        (createLODForObject stateA meshA).lodDistances = [30, 80, 150]
    rw [hfps, hdists]
    norm_num [adaptiveQualityDistances]
  have hAlvls : (adaptiveQuality (createLODForObject stateA meshA) 2).lodObjects =
      (createLODForObject stateA meshA).lodObjects := rfl
  refine ⟨hAdists, ?_, ?_, ?_, by norm_num⟩
  · rw [hAlvls]
    exact hlvls
  · rw [hAlvls]
    have : ((createLODForObject stateA meshA).lodObjects.getD 0
        ("", ⟨[], ⟨0, 0, 0⟩⟩)).2.levels.map Prod.snd = [0, 50, 150, 300] := by
      rcases hobj : (createLODForObject stateA meshA).lodObjects with _ | ⟨e, rest⟩
      · rw [hobj] at hlvls
        simp at hlvls
      · rw [hobj] at hlvls
        rcases rest with _ | ⟨e2, rest2⟩
        · simp only [List.getD_cons_zero]
          simp at hlvls
          exact hlvls.2
        · simp at hlvls
    unfold lodSelect
    rw [this]
    norm_num [lodSelectDistances, lodScan]
  · rw [hAdists]
    norm_num [lodSelectDistances, lodScan]

/-- Claim C2 amended: the LOD distance thresholds an object is evaluated
against are the ones captured when its levels were created, not the
latest ones.  `adaptiveQuality` leaves the registry of LOD nodes
untouched, and registration copies the threshold values current at
registration time into the new node's levels; a threshold change by the
quality controller therefore only affects objects registered after it. -/
theorem C2_thresholds_captured_at_registration (s : LODState) (obj : Object)
    (devicePixelRatio : ℚ) (hm : obj.isMesh = true) (hg : obj.geometry.isSome = true)
    (hreg : s.lodObjects.any (fun e => e.1 == obj.uuid) = false) :
    (adaptiveQuality s devicePixelRatio).lodObjects = s.lodObjects ∧
    (∃ entry : LODEntry,
      (createLODForObject s obj).lodObjects = s.lodObjects ++ [(obj.uuid, entry)] ∧
      entry.levels.map Prod.snd =
        [0, s.lodDistances.getD 0 0, s.lodDistances.getD 1 0,
          s.lodDistances.getD 2 0]) := by
  refine ⟨rfl, ?_⟩
  obtain ⟨m, hm6⟩ := createReducedDetail_of_mesh obj (6 / 10) hm hg
  obtain ⟨l, hl3⟩ := createReducedDetail_of_mesh obj (3 / 10) hm hg
  refine ⟨⟨[(obj, 0), (m, s.lodDistances.getD 0 0), (l, s.lodDistances.getD 1 0),
      (createImpostor obj, s.lodDistances.getD 2 0)], obj.position⟩, ?_, by simp⟩
  unfold createLODForObject
  rw [hm, hreg]
  simp [hm6, hl3]

theorem C2_witness :
    (meshA.isMesh = true ∧ meshA.geometry.isSome = true ∧
      stateA.lodObjects.any (fun e => e.1 == meshA.uuid) = false) ∧
    ((adaptiveQuality stateA 2).lodObjects = stateA.lodObjects ∧
      (∃ entry : LODEntry,
        (createLODForObject stateA meshA).lodObjects =
          stateA.lodObjects ++ [(meshA.uuid, entry)] ∧
        entry.levels.map Prod.snd =
          [0, stateA.lodDistances.getD 0 0, stateA.lodDistances.getD 1 0,
            stateA.lodDistances.getD 2 0])) :=
  ⟨⟨rfl, rfl, rfl⟩,
    C2_thresholds_captured_at_registration stateA meshA 2 rfl rfl rfl⟩

/-- Claim C8: registration with the LOD selector is idempotent.  A second
`createLODForObject` call for the same object finds its uuid in the
registry (or the object is not a mesh, in which case both calls are
no-ops) and changes nothing: registry, scene and all other state are
exactly those after the first call. -/
theorem C8_createLOD_idempotent (s : LODState) (obj : Object) :
    createLODForObject (createLODForObject s obj) obj = createLODForObject s obj := by
  by_cases hm : obj.isMesh = true
  · by_cases hreg : s.lodObjects.any (fun e => e.1 == obj.uuid) = true
    · rw [createLOD_registered s obj hreg, createLOD_registered s obj hreg]
    · rw [Bool.not_eq_true] at hreg
      have h2 : (createLODForObject s obj).lodObjects.any
          (fun e => e.1 == obj.uuid) = true := by
        unfold createLODForObject
        rw [hm, hreg]
        simp
      exact createLOD_registered _ obj h2
  · rw [Bool.not_eq_true] at hm
    rw [createLOD_not_mesh s obj hm, createLOD_not_mesh s obj hm]

/-! ## Quality adaptation under a constant 20 FPS stream (claim C3)

With a constant stream of 20 FPS samples the measured mean FPS is 20 every
sampling interval, so each adaptation step is `adaptiveQuality` evaluated
at `averageFPS = 20`.  At 20 FPS the pixel-ratio branch taken by the code
is `avgFPS < 30 && getPixelRatio() > 1`, so the per-step behaviour of the
ratio is captured by `nearRatioStep`. -/

/-- The pixel-ratio step `adaptiveQuality` performs at 20 mean FPS: a 10%
decrease while the ratio is above 1 (the `Math.max(0.5, ·)` floor never
binds there, since `0.9 · p > 0.9 > 0.5` for `p > 1`), identity
otherwise. -/
def nearRatioStep (p : ℚ) : ℚ :=
  if 1 < p then p * (9 / 10) else p

theorem adaptiveQualityRatio_at20 (p devicePixelRatio : ℚ) :
    adaptiveQualityRatio 20 p devicePixelRatio = nearRatioStep p := by
  unfold adaptiveQualityRatio nearRatioStep
  by_cases hp : 1 < p
  · rw [if_pos ⟨by norm_num, hp⟩, if_pos hp]
    exact max_eq_right (by nlinarith)
  · rw [if_neg (fun h => hp h.2), if_neg (fun h => absurd h.1 (by norm_num)),
      if_neg hp]

theorem iterate_adaptive_fps (devicePixelRatio : ℚ) (s : LODState) (n : ℕ) :
    ((fun t => adaptiveQuality t devicePixelRatio)^[n] s).averageFPS =
      s.averageFPS := by
  induction n with
  | zero => rfl
  | succ n ih =>
    rw [Function.iterate_succ_apply']
    exact ih

theorem iterate_adaptive_ratio (devicePixelRatio : ℚ) (s : LODState)
    (h20 : s.averageFPS = 20) (n : ℕ) :
    ((fun t => adaptiveQuality t devicePixelRatio)^[n] s).pixelRatio =
      nearRatioStep^[n] s.pixelRatio := by
  induction n with
  | zero => rfl
  | succ n ih =>
    rw [Function.iterate_succ_apply', Function.iterate_succ_apply']
    have hfps := iterate_adaptive_fps devicePixelRatio s n
    rw [h20] at hfps
    show adaptiveQualityRatio
        ((fun t => adaptiveQuality t devicePixelRatio)^[n] s).averageFPS
        ((fun t => adaptiveQuality t devicePixelRatio)^[n] s).pixelRatio
        devicePixelRatio = _
    rw [hfps, adaptiveQualityRatio_at20, ih]

theorem nearRatioStep_le (p : ℚ) : nearRatioStep p ≤ p := by
  unfold nearRatioStep
  by_cases hp : 1 < p
  · rw [if_pos hp]
    nlinarith
  · rw [if_neg hp]

theorem nearRatioStep_fix {p : ℚ} (h : p ≤ 1) : nearRatioStep p = p :=
  if_neg (not_lt.mpr h)

theorem nearRatioStep_of_gt {p : ℚ} (h : 1 < p) :
    nearRatioStep p = p * (9 / 10) :=
  if_pos h

theorem nearRatioStep_lower {p : ℚ} (h : 9 / 10 < p) :
    9 / 10 < nearRatioStep p := by
  unfold nearRatioStep
  by_cases hp : 1 < p
  · rw [if_pos hp]
    nlinarith
  · rw [if_neg hp]
    exact h

theorem nearRatioStep_iterate_stable {p : ℚ} {m : ℕ}
    (h : nearRatioStep^[m] p ≤ 1) :
    ∀ k, m ≤ k → nearRatioStep^[k] p = nearRatioStep^[m] p := by
  intro k hk
  induction k with
  | zero =>
    rw [Nat.le_zero.mp hk]
  | succ k ih =>
    rcases Nat.lt_or_ge m (k + 1) with hlt | hge
    · have hkeq := ih (Nat.lt_succ_iff.mp hlt)
      rw [Function.iterate_succ_apply', hkeq, nearRatioStep_fix h]
    · rw [le_antisymm hk hge]

theorem nearRatioStep_exists_le_one (p : ℚ) :
    ∃ m, nearRatioStep^[m] p ≤ 1 := by
  by_contra hc
  push_neg at hc
  have hgrow : ∀ n, nearRatioStep^[n] p = (9 / 10) ^ n * p := by
    intro n
    induction n with
    | zero => simp
    | succ n ih =>
      rw [Function.iterate_succ_apply', nearRatioStep_of_gt (hc n), ih]
      ring
  have hp1 : 1 < p := by simpa using hc 0
  have hp : (0 : ℚ) < p := lt_trans one_pos hp1
  obtain ⟨n, hn⟩ :=
    exists_pow_lt_of_lt_one (one_div_pos.mpr hp) (by norm_num : (9 : ℚ) / 10 < 1)
  have : (9 / 10 : ℚ) ^ n * p < 1 := by
    have := mul_lt_mul_of_pos_right hn hp
    rwa [one_div, inv_mul_cancel₀ (ne_of_gt hp)] at this
  have h1 := hc n
  rw [hgrow n] at h1
  linarith

theorem nearRatioStep_iterate_lower {p : ℚ} (h : 9 / 10 < p) (n : ℕ) :
    9 / 10 < nearRatioStep^[n] p := by
  induction n with
  | zero => exact h
  | succ n ih =>
    rw [Function.iterate_succ_apply']
    exact nearRatioStep_lower ih

/-- Claim C3 fails on the code: the scale-decrease condition is
`avgFPS < 30 && renderer.getPixelRatio() > 1`, not `> 0.5`.  At 20 mean
FPS with the resolution scale at 0.9 — strictly above the claimed 0.5
threshold — `adaptiveQuality` leaves the scale at 0.9 instead of
decreasing it by 10% to 0.81. -/
theorem C3_counterexample :
    ((20 : ℚ) < 30) ∧ ((1 : ℚ) / 2 < 9 / 10) ∧
    (adaptiveQuality ⟨[50, 150, 300], [], [], 9 / 10, 20⟩ 2).pixelRatio = 9 / 10 ∧
    (9 / 10 : ℚ) ≠ max (1 / 2) ((9 / 10) * (9 / 10)) := by
  refine ⟨by norm_num, by norm_num, ?_, by norm_num⟩
  show adaptiveQualityRatio 20 (9 / 10) 2 = 9 / 10
  rw [adaptiveQualityRatio_at20]
  unfold nearRatioStep
  norm_num

/-- Claim C3 amended: the decrease branch fires only while the resolution
scale is above 1.  Under a constant 20 FPS stream the scale moves by
`nearRatioStep` every adaptation step: one step multiplies a scale above 1
by 0.9 (the 0.5 floor never binds) and leaves a scale at or below 1
unchanged; the iterated sequence is monotonically non-increasing, becomes
constant from some step on at a value at most 1, and — for a starting
scale above 0.9, in particular for any start above 1 — stays strictly
above 0.9 forever, so it never reaches the 0.5 floor. -/
theorem C3_ratio_convergence (devicePixelRatio : ℚ) (s : LODState)
    (h20 : s.averageFPS = 20) :
    (1 < s.pixelRatio →
      (adaptiveQuality s devicePixelRatio).pixelRatio =
        s.pixelRatio * (9 / 10)) ∧
    (s.pixelRatio ≤ 1 →
      (adaptiveQuality s devicePixelRatio).pixelRatio = s.pixelRatio) ∧
    (∀ n, ((fun t => adaptiveQuality t devicePixelRatio)^[n + 1] s).pixelRatio ≤
      ((fun t => adaptiveQuality t devicePixelRatio)^[n] s).pixelRatio) ∧
    (∃ m, ((fun t => adaptiveQuality t devicePixelRatio)^[m] s).pixelRatio ≤ 1 ∧
      ∀ k, m ≤ k →
        ((fun t => adaptiveQuality t devicePixelRatio)^[k] s).pixelRatio =
        ((fun t => adaptiveQuality t devicePixelRatio)^[m] s).pixelRatio) ∧
    (9 / 10 < s.pixelRatio →
      ∀ n, 9 / 10 <
        ((fun t => adaptiveQuality t devicePixelRatio)^[n] s).pixelRatio) := by
  have hstep : (adaptiveQuality s devicePixelRatio).pixelRatio =
      nearRatioStep s.pixelRatio := by
    show adaptiveQualityRatio s.averageFPS s.pixelRatio devicePixelRatio = _
    rw [h20, adaptiveQualityRatio_at20]
  refine ⟨?_, ?_, ?_, ?_, ?_⟩
  · intro h1
    rw [hstep, nearRatioStep_of_gt h1]
  · intro h1
    rw [hstep, nearRatioStep_fix h1]
  · intro n
    rw [iterate_adaptive_ratio devicePixelRatio s h20,
      iterate_adaptive_ratio devicePixelRatio s h20,
      Function.iterate_succ_apply']
    exact nearRatioStep_le _
  · obtain ⟨m, hm⟩ := nearRatioStep_exists_le_one s.pixelRatio
    refine ⟨m, ?_, ?_⟩
    · rw [iterate_adaptive_ratio devicePixelRatio s h20]
      exact hm
    · intro k hk
      rw [iterate_adaptive_ratio devicePixelRatio s h20,
        iterate_adaptive_ratio devicePixelRatio s h20]
      exact nearRatioStep_iterate_stable hm k hk
  · intro h9 n
    rw [iterate_adaptive_ratio devicePixelRatio s h20]
    exact nearRatioStep_iterate_lower h9 n

theorem C3_witness :
    (LODState.mk [50, 150, 300] [] [] 2 20).averageFPS = 20 ∧
    ((1 < (LODState.mk [50, 150, 300] [] [] 2 20).pixelRatio →
      (adaptiveQuality (LODState.mk [50, 150, 300] [] [] 2 20) 2).pixelRatio =
        (LODState.mk [50, 150, 300] [] [] 2 20).pixelRatio * (9 / 10)) ∧
    ((LODState.mk [50, 150, 300] [] [] 2 20).pixelRatio ≤ 1 →
      (adaptiveQuality (LODState.mk [50, 150, 300] [] [] 2 20) 2).pixelRatio =
        (LODState.mk [50, 150, 300] [] [] 2 20).pixelRatio) ∧
    (∀ n, ((fun t => adaptiveQuality t 2)^[n + 1]
        (LODState.mk [50, 150, 300] [] [] 2 20)).pixelRatio ≤
      ((fun t => adaptiveQuality t 2)^[n]
        (LODState.mk [50, 150, 300] [] [] 2 20)).pixelRatio) ∧
    (∃ m, ((fun t => adaptiveQuality t 2)^[m]
        (LODState.mk [50, 150, 300] [] [] 2 20)).pixelRatio ≤ 1 ∧
      ∀ k, m ≤ k →
        ((fun t => adaptiveQuality t 2)^[k]
          (LODState.mk [50, 150, 300] [] [] 2 20)).pixelRatio =
        ((fun t => adaptiveQuality t 2)^[m]
          (LODState.mk [50, 150, 300] [] [] 2 20)).pixelRatio) ∧
    (9 / 10 < (LODState.mk [50, 150, 300] [] [] 2 20).pixelRatio →
      ∀ n, 9 / 10 < ((fun t => adaptiveQuality t 2)^[n]
        (LODState.mk [50, 150, 300] [] [] 2 20)).pixelRatio)) :=
  ⟨rfl, C3_ratio_convergence 2 (LODState.mk [50, 150, 300] [] [] 2 20) rfl⟩

/-! ## Frustum culling (src/js/performance-optimizer.js)

`updateFrustumCulling` walks the scene and, for every mesh or sprite with
a computable bounding sphere, tests the world-transformed sphere against
the camera frustum with `THREE.Frustum.intersectsSphere` (false exactly
when some plane has `distanceToPoint(center) < -radius`), captures
`userData.originallyVisible` from `object.visible` the first time the
object is processed, and sets
`object.visible = isVisible && originallyVisible`.  The world
transformation of the geometry's bounding sphere by `matrixWorld` is
THREE.js matrix algebra; the model takes the resulting world sphere as the
object's datum. -/

/-- A plane in Hessian form, as `THREE.Plane`: signed distance to a point
`p` is `normal ⋅ p + constant`. -/
structure Plane where
  normal : Vec3
  constant : ℚ
deriving DecidableEq

/-- Signed distance from a plane to a point (`THREE.Plane.distanceToPoint`). -/
def Plane.distanceToPoint (pl : Plane) (p : Vec3) : ℚ :=
  Vec3.dot pl.normal p + pl.constant

/-- A bounding sphere in world space. -/
structure Sphere where
  center : Vec3
  radius : ℚ
deriving DecidableEq

/-- `THREE.Frustum.intersectsSphere` over the frustum's plane list: false
exactly when the sphere lies fully outside some plane, that is when
`distanceToPoint(center) < -radius` for that plane. -/
def intersectsSphere (planes : List Plane) (sph : Sphere) : Bool :=
  planes.all (fun pl => decide (-sph.radius ≤ pl.distanceToPoint sph.center))

/-- The per-object culling state: whether the node is a mesh or sprite,
its current `visible` flag, the captured `userData.originallyVisible`
(absent until first capture), and its world bounding sphere (absent when
no geometry / bounding sphere is computable). -/
structure CullObj where
  isMesh : Bool
  isSprite : Bool
  visible : Bool
  originallyVisible : Option Bool
  sphere : Option Sphere
deriving DecidableEq

/-- The per-object body of `updateFrustumCulling` (performance-optimizer.js
lines 369-409): meshes and sprites with a bounding sphere get
`visible = intersectsSphere && originallyVisible`, with
`originallyVisible` captured from the current `visible` flag when not yet
set; every other node is untouched. -/
def cullStep (planes : List Plane) (o : CullObj) : CullObj :=
  if o.isMesh || o.isSprite then
    match o.sphere with
    | some sph =>
      let isVisible := intersectsSphere planes sph
      let ov := match o.originallyVisible with
        | some v => v
        | none => o.visible
      { o with originallyVisible := some ov, visible := isVisible && ov }
    | none => o
  else o

/-- A whole culling pass: the per-object update over the scene list. -/
def updateFrustumCulling (planes : List Plane) (scene : List CullObj) :
    List CullObj :=
  scene.map (cullStep planes)

/-- The `originallyVisible` value `cullStep` works with: the captured one
if present, otherwise the current `visible` flag about to be captured. -/
def capturedVisible (o : CullObj) : Bool :=
  match o.originallyVisible with
  | some v => v
  | none => o.visible

theorem cullStep_eq (planes : List Plane) (o : CullObj) (sph : Sphere)
    (hcull : (o.isMesh || o.isSprite) = true) (hsph : o.sphere = some sph) :
    cullStep planes o =
      { o with originallyVisible := some (capturedVisible o),
               visible := intersectsSphere planes sph && capturedVisible o } := by
  unfold cullStep
  rw [hcull, hsph]
  rfl

theorem cullStep_fields (planes : List Plane) (o : CullObj) :
    (cullStep planes o).isMesh = o.isMesh ∧
    (cullStep planes o).isSprite = o.isSprite ∧
    (cullStep planes o).sphere = o.sphere := by
  unfold cullStep
  split
  · split
    · exact ⟨rfl, rfl, rfl⟩
    · exact ⟨rfl, rfl, rfl⟩
  · exact ⟨rfl, rfl, rfl⟩

/-- Claim C6: after a culling pass, the rendered visibility of every mesh
or sprite with a computable world bounding sphere equals
`intersectsSphere(frustum, sphere) && originallyVisible`, where
`originallyVisible` is the author flag captured from `visible` the first
time the culler sees the object and is never overwritten by later passes;
consequently an object whose sphere lies fully outside some frustum plane
is marked not visible, and an originally-invisible object is never made
visible by culling. -/
theorem C6_culling_policy (planes planes2 : List Plane) (o : CullObj)
    (sph : Sphere) (hcull : (o.isMesh || o.isSprite) = true)
    (hsph : o.sphere = some sph) :
    (cullStep planes o).visible =
      (intersectsSphere planes sph && capturedVisible o) ∧
    (cullStep planes o).originallyVisible = some (capturedVisible o) ∧
    (cullStep planes2 (cullStep planes o)).originallyVisible =
      some (capturedVisible o) ∧
    ((∃ pl ∈ planes, pl.distanceToPoint sph.center < -sph.radius) →
      (cullStep planes o).visible = false) ∧
    (capturedVisible o = false → (cullStep planes o).visible = false) ∧
    updateFrustumCulling planes [o] = [cullStep planes o] := by
  have h1 := cullStep_eq planes o sph hcull hsph
  have hfields := cullStep_fields planes o
  have hcull' : ((cullStep planes o).isMesh || (cullStep planes o).isSprite) = true := by
    rw [hfields.1, hfields.2.1]
    exact hcull
  have hsph' : (cullStep planes o).sphere = some sph := by
    rw [hfields.2.2]
    exact hsph
  have h2 := cullStep_eq planes2 (cullStep planes o) sph hcull' hsph'
  refine ⟨by rw [h1], by rw [h1], ?_, ?_, ?_, rfl⟩
  · rw [h2]
    show some (capturedVisible (cullStep planes o)) = some (capturedVisible o)
    unfold capturedVisible
    rw [h1]
    exact rfl
  · intro ⟨pl, hmem, hout⟩
    have hfalse : intersectsSphere planes sph = false := by
      unfold intersectsSphere
      rw [List.all_eq_false]
      exact ⟨pl, hmem, by simpa using not_le.mpr hout⟩
    rw [h1]
    show (intersectsSphere planes sph && capturedVisible o) = false
    rw [hfalse, Bool.false_and]
  · intro hov
    rw [h1]
    show (intersectsSphere planes sph && capturedVisible o) = false
    rw [hov, Bool.and_false]

/-- The six planes of the axis-aligned box `[-1,1]^3`, a concrete stand-in
frustum for witnesses. -/
def cubePlanes : List Plane :=
  [⟨⟨1, 0, 0⟩, 1⟩, ⟨⟨-1, 0, 0⟩, 1⟩, ⟨⟨0, 1, 0⟩, 1⟩,
   ⟨⟨0, -1, 0⟩, 1⟩, ⟨⟨0, 0, 1⟩, 1⟩, ⟨⟨0, 0, -1⟩, 1⟩]

/-- A concrete visible mesh at the camera position with a non-degenerate
bounding sphere, not yet seen by the culler. -/
def cullMeshA : CullObj :=
  CullObj.mk true false true none (some (Sphere.mk ⟨0, 0, 0⟩ (1 / 2)))

theorem C6_witness :
    ((cullMeshA.isMesh || cullMeshA.isSprite) = true ∧
      cullMeshA.sphere = some (Sphere.mk ⟨0, 0, 0⟩ (1 / 2))) ∧
    ((cullStep cubePlanes cullMeshA).visible =
      (intersectsSphere cubePlanes (Sphere.mk ⟨0, 0, 0⟩ (1 / 2)) &&
        capturedVisible cullMeshA) ∧
    (cullStep cubePlanes cullMeshA).originallyVisible =
      some (capturedVisible cullMeshA) ∧
    (cullStep cubePlanes (cullStep cubePlanes cullMeshA)).originallyVisible =
      some (capturedVisible cullMeshA) ∧
    ((∃ pl ∈ cubePlanes,
        pl.distanceToPoint (Sphere.mk ⟨0, 0, 0⟩ (1 / 2)).center <
          -(Sphere.mk ⟨0, 0, 0⟩ (1 / 2)).radius) →
      (cullStep cubePlanes cullMeshA).visible = false) ∧
    (capturedVisible cullMeshA = false →
      (cullStep cubePlanes cullMeshA).visible = false) ∧
    updateFrustumCulling cubePlanes [cullMeshA] = [cullStep cubePlanes cullMeshA]) :=
  ⟨⟨rfl, rfl⟩,
    C6_culling_policy cubePlanes cubePlanes cullMeshA
      (Sphere.mk ⟨0, 0, 0⟩ (1 / 2)) rfl rfl⟩

/-! ## Toggling optimizations (src/js/performance-optimizer.js)

`toggleOptimization('culling', false)` disables the culling flag and walks
the scene restoring `object.visible` from `userData.originallyVisible` for
every object that has a captured flag, leaving all others untouched. -/

/-- The optimizer state `toggleOptimization` touches. -/
structure CullingState where
  lodEnabled : Bool
  frustumCullingEnabled : Bool
  scene : List CullObj
deriving DecidableEq

/-- The per-object restore of `toggleOptimization`: objects with a
captured `originallyVisible` get it back as their `visible` flag, objects
without one are unchanged. -/
def restoreVisible (o : CullObj) : CullObj :=
  match o.originallyVisible with
  | some v => { o with visible := v }
  | none => o

/-- Shallow embedding of `PerformanceOptimizer.toggleOptimization`
(performance-optimizer.js lines 510-529): the `'lod'` case flips the LOD
flag; the `'culling'` case sets the culling flag and, when disabling,
restores every captured visibility flag; unknown kinds do nothing. -/
def toggleOptimization (s : CullingState) (kind : String) (enabled : Bool) :
    CullingState :=
  if kind = "lod" then { s with lodEnabled := enabled }
  else if kind = "culling" then
    if enabled then { s with frustumCullingEnabled := enabled }
    else { s with frustumCullingEnabled := enabled,
                  scene := s.scene.map restoreVisible }
  else s

/-- Claim C9: disabling frustum culling restores visibility.  After
`toggleOptimization('culling', false)` the scene is the per-object
restore map: every object with a captured `originallyVisible` flag has
`visible` equal to that captured value (the capture itself kept intact),
and objects with no captured flag are left unchanged. -/
theorem C9_toggle_culling_restores (s : CullingState) (o : CullObj) :
    (toggleOptimization s "culling" false).scene = s.scene.map restoreVisible ∧
    (toggleOptimization s "culling" false).frustumCullingEnabled = false ∧
    (∀ v, o.originallyVisible = some v →
      (restoreVisible o).visible = v ∧
      (restoreVisible o).originallyVisible = some v) ∧
    (o.originallyVisible = none → restoreVisible o = o) := by
  have ht : toggleOptimization s "culling" false =
      { s with frustumCullingEnabled := false,
               scene := s.scene.map restoreVisible } := by
    unfold toggleOptimization
    rw [if_neg (by decide), if_pos rfl]
    rfl
  refine ⟨by rw [ht], by rw [ht], ?_, ?_⟩
  · intro v hv
    unfold restoreVisible
    rw [hv]
    exact ⟨rfl, rfl⟩
  · intro hv
    unfold restoreVisible
    rw [hv]

theorem C9_witness :
    (CullObj.mk true false false (some true) none).originallyVisible =
      some true ∧
    (toggleOptimization (CullingState.mk true true []) "culling" false).scene =
      ([] : List CullObj).map restoreVisible ∧
    (restoreVisible (CullObj.mk true false false (some true) none)).visible = true :=
  ⟨rfl,
    (C9_toggle_culling_restores (CullingState.mk true true [])
      (CullObj.mk true false false (some true) none)).1,
    ((C9_toggle_culling_restores (CullingState.mk true true [])
      (CullObj.mk true false false (some true) none)).2.2.1 true rfl).1⟩

/-! ## Object pools (src/js/performance-optimizer.js)

`objectPools` is a map from pool names to arrays.  `getFromPool` pops the
last element of a non-empty named pool; `returnToPool` resets an object's
transform and visibility and pushes it, but only while the named pool
holds fewer than 100 objects — at 100 the object is silently dropped.
A JavaScript array is modelled as a Lean list with `push` appending at
the tail and `pop` removing the last element. -/

/-- A poolable object, reduced to the state `returnToPool` resets. -/
structure PoolObj where
  position : Vec3
  rotation : Vec3
  scale : Vec3
  visible : Bool
deriving DecidableEq

/-- The pool map: association list from pool names to their arrays. -/
abbrev Pools := List (String × List PoolObj)

/-- Look a pool up by name (`this.objectPools.get(poolName)`). -/
def findPool (pools : Pools) (name : String) : Option (List PoolObj) :=
  (pools.find? (fun e => e.1 == name)).map (fun e => e.2)

/-- Replace the named pool's array (the in-place mutation of the array
returned by `Map.get`). -/
def setPool (pools : Pools) (name : String) (v : List PoolObj) : Pools :=
  pools.map (fun e => if e.1 == name then (e.1, v) else e)

/-- Shallow embedding of `PerformanceOptimizer.getFromPool`
(performance-optimizer.js lines 270-273): pop and return the last element
of a non-empty named pool, `null` otherwise. -/
def getFromPool (pools : Pools) (name : String) : Option PoolObj × Pools :=
  match findPool pools name with
  | some pool =>
    if 0 < pool.length then (pool.getLast?, setPool pools name pool.dropLast)
    else (none, pools)
  | none => (none, pools)

/-- The object reset performed by `returnToPool` before pushing: position
and rotation zeroed, scale reset to one, visibility restored. -/
def resetPoolObj (o : PoolObj) : PoolObj :=
  { o with position := ⟨0, 0, 0⟩, rotation := ⟨0, 0, 0⟩,
           scale := ⟨1, 1, 1⟩, visible := true }

/-- Shallow embedding of `PerformanceOptimizer.returnToPool`
(performance-optimizer.js lines 280-291): when the named pool exists and
holds fewer than 100 objects, reset the object and push it; otherwise do
nothing (the object is silently dropped). -/
def returnToPool (pools : Pools) (name : String) (o : PoolObj) : Pools :=
  match findPool pools name with
  | some pool =>
    if pool.length < 100 then setPool pools name (pool ++ [resetPoolObj o])
    else pools
  | none => pools

/-- A client-visible pool operation. -/
inductive PoolOp where
  | get (name : String)
  | ret (name : String) (o : PoolObj)

/-- Run a sequence of pool operations left to right. -/
def applyPoolOps (pools : Pools) : List PoolOp → Pools
  | [] => pools
  | PoolOp.get n :: rest => applyPoolOps (getFromPool pools n).2 rest
  | PoolOp.ret n o :: rest => applyPoolOps (returnToPool pools n o) rest

/-- Every pool is bounded by 100 objects. -/
def poolsBounded (pools : Pools) : Prop :=
  ∀ e ∈ pools, e.2.length ≤ 100

instance : DecidablePred poolsBounded := fun pools =>
  List.decidableBAll _ pools

theorem setPool_bounded {pools : Pools} {name : String} {v : List PoolObj}
    (hp : poolsBounded pools) (hv : v.length ≤ 100) :
    poolsBounded (setPool pools name v) := by
  intro e he
  rcases List.mem_map.mp he with ⟨e0, he0, heq⟩
  by_cases hn : (e0.1 == name) = true
  · rw [if_pos hn] at heq
    rw [← heq]
    exact hv
  · rw [if_neg hn] at heq
    rw [← heq]
    exact hp e0 he0

theorem findPool_length {pools : Pools} {name : String} {pool : List PoolObj}
    (hp : poolsBounded pools) (hf : findPool pools name = some pool) :
    pool.length ≤ 100 := by
  unfold findPool at hf
  rcases hfind : pools.find? (fun e => e.1 == name) with _ | e0
  · rw [hfind] at hf
    simp at hf
  · rw [hfind] at hf
    simp only [Option.map_some'] at hf
    have heq : e0.2 = pool := Option.some.inj hf
    rw [← heq]
    exact hp e0 (List.mem_of_find?_eq_some hfind)

theorem getFromPool_bounded {pools : Pools} {name : String}
    (hp : poolsBounded pools) : poolsBounded (getFromPool pools name).2 := by
  unfold getFromPool
  rcases hf : findPool pools name with _ | pool
  · exact hp
  · show poolsBounded
      (if 0 < pool.length then (pool.getLast?, setPool pools name pool.dropLast)
       else (none, pools)).2
    by_cases hlen : 0 < pool.length
    · rw [if_pos hlen]
      refine setPool_bounded hp ?_
      calc pool.dropLast.length ≤ pool.length := by
            rw [List.length_dropLast]
            omega
        _ ≤ 100 := findPool_length hp hf
    · rw [if_neg hlen]
      exact hp

theorem returnToPool_bounded {pools : Pools} {name : String} {o : PoolObj}
    (hp : poolsBounded pools) : poolsBounded (returnToPool pools name o) := by
  unfold returnToPool
  rcases hf : findPool pools name with _ | pool
  · exact hp
  · show poolsBounded
      (if pool.length < 100 then setPool pools name (pool ++ [resetPoolObj o])
       else pools)
    by_cases hlen : pool.length < 100
    · rw [if_pos hlen]
      refine setPool_bounded hp ?_
      rw [List.length_append]
      simp only [List.length_singleton]
      omega
    · rw [if_neg hlen]
      exact hp

/-- Claim C10: the pools are bounded.  Starting from any state whose pools
all hold at most 100 objects (the initial pools are empty), every sequence
of `getFromPool` and `returnToPool` operations keeps every pool at or
below 100 objects; `returnToPool` pushes nothing when the named pool
already holds at least 100 (in particular exactly 100) objects, and when
it does push, the pushed object is the caller's object with position and
rotation zeroed, scale reset to `(1,1,1)` and `visible = true`. -/
theorem C10_pools_bounded (pools : Pools) (ops : List PoolOp) (name : String)
    (o : PoolObj) (pool : List PoolObj) (hp : poolsBounded pools) :
    poolsBounded (applyPoolOps pools ops) ∧
    (findPool pools name = some pool → ¬pool.length < 100 →
      returnToPool pools name o = pools) ∧
    (findPool pools name = some pool → pool.length < 100 →
      returnToPool pools name o =
        setPool pools name (pool ++
          [{ o with position := ⟨0, 0, 0⟩, rotation := ⟨0, 0, 0⟩,
                    scale := ⟨1, 1, 1⟩, visible := true }])) := by
  refine ⟨?_, ?_, ?_⟩
  · induction ops generalizing pools with
    | nil => exact hp
    | cons op rest ih =>
      cases op with
      | get n => exact ih _ (getFromPool_bounded hp)
      | ret n obj => exact ih _ (returnToPool_bounded hp)
  · intro hf hlen
    unfold returnToPool
    rw [hf]
    show (if pool.length < 100 then setPool pools name (pool ++ [resetPoolObj o])
      else pools) = pools
    rw [if_neg hlen]
  · intro hf hlen
    unfold returnToPool
    rw [hf]
    show (if pool.length < 100 then setPool pools name (pool ++ [resetPoolObj o])
      else pools) = _
    rw [if_pos hlen]
    rfl

theorem C10_witness :
    poolsBounded [("particles", []), ("temporary", [])] ∧
    poolsBounded (applyPoolOps [("particles", []), ("temporary", [])]
      [PoolOp.ret "particles" (PoolObj.mk ⟨5, 5, 5⟩ ⟨1, 1, 1⟩ ⟨2, 2, 2⟩ false),
       PoolOp.get "particles", PoolOp.get "temporary"]) :=
  ⟨by decide,
    (C10_pools_bounded [("particles", []), ("temporary", [])]
      [PoolOp.ret "particles" (PoolObj.mk ⟨5, 5, 5⟩ ⟨1, 1, 1⟩ ⟨2, 2, 2⟩ false),
       PoolOp.get "particles", PoolOp.get "temporary"]
      "particles" (PoolObj.mk ⟨5, 5, 5⟩ ⟨1, 1, 1⟩ ⟨2, 2, 2⟩ false) []
      (by decide)).1⟩

end Mundi
